import Mathlib

/-!
Shallow embedding of `src/monitor.py` (ha-otodata): a BLE-to-MQTT bridge for
Otodata propane tank monitors.  Advertisement processing is modelled as pure
state passing over an explicit `BridgeState`; MQTT publications are collected
into lists; the one uncaught Python exception path (`float()` raising
`ValueError`) is modelled as an explicit error component.  Bytes are `Nat`
values below 256, names are `List Char` / `String`.
-/

namespace Otodata

/-- ASCII whitespace characters matched by the Python regex class for
whitespace and stripped by Python string trimming. -/
def isPySpace (c : Char) : Bool :=
  c = ' ' || c = '\t' || c = '\n' || c = '\r' || c = '\x0b' || c = '\x0c'

/-- Characters matched by the bracket class of digits and a dot in the level
regex of monitor.py line 140. -/
def isDigitDot (c : Char) : Bool :=
  c.isDigit || c = '.'

/-- Leftmost match of the Python regex searching for the literal token
followed by optional whitespace and a nonempty run of digit/dot characters
(monitor.py line 140): scan positions left to right; where the literal
matches, skip whitespace greedily and take the maximal digit/dot run; succeed
if the run is nonempty, otherwise keep scanning from the next position. -/
def levelToken : List Char → Option (List Char)
  | [] => none
  | c :: cs =>
    if ['l', 'e', 'v', 'e', 'l', ':'].isPrefixOf (c :: cs) then
      let run := (((c :: cs).drop 6).dropWhile isPySpace).takeWhile isDigitDot
      if run.isEmpty then levelToken cs else some run
    else levelToken cs

/-- Numeric value of a digit string, 0 for the empty string. -/
def natOfDigits (l : List Char) : Nat :=
  l.foldl (fun a c => 10 * a + (c.toNat - 48)) 0

/-- Python float() applied to a token made of digits and dots (the only shape
the level regex can capture): it succeeds exactly when the token has at most
one dot and at least one digit, and the value is the exact decimal rational
(monitor.py line 143). -/
def floatOfToken (l : List Char) : Option ℚ :=
  let frac := (l.dropWhile (fun c => c ≠ '.')).drop 1
  if l.countP (fun c => c == '.') ≤ 1 ∧ l.any Char.isDigit then
    some (mkRat ((natOfDigits (l.takeWhile Char.isDigit) * 10 ^ frac.length +
      natOfDigits frac : Nat) : Int) (10 ^ frac.length))
  else none

/-- monitor.py line 21: default value of the bridge availability topic. -/
def BRIDGE_TOPIC : String := "otodata/bridge/status"

/-- monitor.py line 22. -/
def HA_PREFIX : String := "homeassistant"

/-- monitor.py line 25: the Otodata manufacturer id 0x03B1. -/
def OTODATA_MFG_ID : Nat := 945

/-- monitor.py line 26: the 3-byte ASCII tag b"OTO" (source name ends in the
word PREFIX). -/
def OTODATA_TAG : List Nat := [79, 84, 79]

/-- int.from_bytes(_, byteorder="little") on a byte list (each entry < 256);
Python silently accepts fewer than 4 bytes. -/
def fromBytesLE : List Nat → Nat
  | [] => 0
  | b :: bs => b + 256 * fromBytesLE bs

/-- monitor.py lines 96-105, parse_serial: if the payload starts with the
3-byte tag, return str(int.from_bytes(mfg[7:11], "little")).  Python slicing
truncates silently (it never raises IndexError), so the slice of a short
payload is simply shorter, down to empty. -/
def parse_serial (mfg : List Nat) : Option String :=
  if OTODATA_TAG.isPrefixOf mfg then
    some (Nat.repr (fromBytesLE ((mfg.drop 7).take 4)))
  else
    none

/-- Structured form of the MQTT payloads monitor.py publishes: the plain
string payloads ("online"), the level sensor discovery config JSON (a fixed
function of the serial, lines 55-70), the rssi sensor discovery config JSON
(lines 73-88), and the state JSON object with level, rssi and mac fields
(line 144). -/
inductive Payload where
  | str : String → Payload
  | levelConfig : String → Payload
  | rssiConfig : String → Payload
  | state : ℚ → Int → String → Payload
  deriving DecidableEq

/-- One client.publish call: topic, payload, retain flag. -/
structure Publish where
  topic : String
  payload : Payload
  retain : Bool
  deriving DecidableEq

/-- monitor.py lines 28-32: the two module-level mutable maps.  known_tanks
maps MAC address to serial (association list, first entry wins, mirroring
insert-only dict use); configured_serials is the set of announced serials. -/
structure BridgeState where
  knownTanks : List (String × String)
  configuredSerials : List String
  deriving DecidableEq

/-- The empty state the process starts in. -/
def initState : BridgeState := ⟨[], []⟩

/-- monitor.py lines 39-93, publish_ha_discovery: return unchanged if the
serial is already configured, else publish the two retained sensor configs
and add the serial to configured_serials. -/
def publish_ha_discovery (s : BridgeState) (serial : String) :
    BridgeState × List Publish :=
  if serial ∈ s.configuredSerials then
    (s, [])
  else
    ({ s with configuredSerials := serial :: s.configuredSerials },
     [⟨HA_PREFIX ++ "/sensor/otodata_" ++ serial ++ "/level/config",
        Payload.levelConfig serial, true⟩,
      ⟨HA_PREFIX ++ "/sensor/otodata_" ++ serial ++ "/rssi/config",
        Payload.rssiConfig serial, true⟩])

/-- One advertisement event as seen by detection_callback: source address,
the manufacturer-data entry for the Otodata id (None when absent), the
optional local name, and the rssi. -/
structure Adv where
  address : String
  mfgData : Option (List Nat)
  localName : Option String
  rssi : Int

/-- monitor.py lines 128-131: the identity decode of one advertisement.
`if mfg_bytes:` is Python truthiness, so an empty byte string is skipped. -/
def identity_decode (adv : Adv) : Option String :=
  match adv.mfgData with
  | none => none
  | some mfg => if mfg.isEmpty then none else parse_serial mfg

/-- monitor.py lines 127-134, step 1 of detection_callback: on a successful
identity decode for an address not yet in known_tanks, record the address and
run publish_ha_discovery; an already-known address is left untouched. -/
def step1 (s : BridgeState) (adv : Adv) : BridgeState × List Publish :=
  match identity_decode adv with
  | none => (s, [])
  | some serial =>
    if (s.knownTanks.lookup adv.address).isNone then
      publish_ha_discovery
        { s with knownTanks := (adv.address, serial) :: s.knownTanks } serial
    else (s, [])

/-- monitor.py lines 136-146, step 2 of detection_callback: for a known
address, search the local name for the level pattern and publish the retained
state payload; float() on a matched token that is not a valid number raises
an uncaught ValueError, modelled as the error component. -/
def step2 (s : BridgeState) (adv : Adv) : List Publish × Option String :=
  match s.knownTanks.lookup adv.address with
  | none => ([], none)
  | some serial =>
    match levelToken (adv.localName.getD "").data with
    | none => ([], none)
    | some tok =>
      match floatOfToken tok with
      | none => ([], some "ValueError")
      | some level =>
        ([⟨"otodata/" ++ serial ++ "/state",
            Payload.state level adv.rssi adv.address, true⟩], none)

/-- Result of one detection_callback invocation: the state after the call,
the publishes it made (in order), and the uncaught exception if one was
raised.  Step 1 mutations and publishes have already happened when step 2
raises, exactly as in the Python control flow. -/
structure CallbackResult where
  state : BridgeState
  pubs : List Publish
  err : Option String
  deriving DecidableEq

/-- monitor.py lines 123-146, detection_callback, as one state transition. -/
def detection_callback (s : BridgeState) (adv : Adv) : CallbackResult :=
  ⟨(step1 s adv).1,
   (step1 s adv).2 ++ (step2 (step1 s adv).1 adv).1,
   (step2 (step1 s adv).1 adv).2⟩

/-- Result of processing a whole list of advertisements. -/
structure RunResult where
  state : BridgeState
  pubs : List Publish
  errs : List String
  deriving DecidableEq

/-- Process advertisements in order; an uncaught exception from one callback
is logged by the event loop and scanning continues with the next event. -/
def runAdvs : BridgeState → List Adv → RunResult
  | s, [] => ⟨s, [], []⟩
  | s, a :: rest =>
    let r := detection_callback s a
    let rr := runAdvs r.state rest
    ⟨rr.state, r.pubs ++ rr.pubs, r.err.toList ++ rr.errs⟩

/-- monitor.py lines 108-120, on_connect: on reason code 0 publish the
retained "online" payload to the bridge topic, otherwise only log. -/
def on_connect (rc : Nat) : List Publish :=
  if rc = 0 then [⟨BRIDGE_TOPIC, Payload.str "online", true⟩] else []

/-- A registered MQTT last-will message. -/
structure Will where
  topic : String
  payload : String
  qos : Nat
  retain : Bool
  deriving DecidableEq

/-- monitor.py line 155: the last will registered before connecting. -/
def last_will : Will := ⟨BRIDGE_TOPIC, "offline", 1, true⟩

/-- Modelled from the spec: the name-framing identity decode.  The spec's
decoder supports two framings, but src/monitor.py implements only the binary
one; the name framing lives in the repository's second, near-duplicate
top-level script, which is not under src/.  Spec: "the free-text local name
begins with a fixed model-number prefix string; the remainder of the name
(trimmed of surrounding whitespace) is the serial verbatim", with the fixed
model number "TM6030". -/
def modelTag : List Char := ['T', 'M', '6', '0', '3', '0']

/-- Python str.strip(): drop whitespace from both ends. -/
def trimChars (l : List Char) : List Char :=
  ((l.dropWhile isPySpace).reverse.dropWhile isPySpace).reverse

/-- Modelled from the spec: name-framing decode of a local name (see
modelTag above for what is missing from src/). -/
def parse_serial_name (name : List Char) : Option (List Char) :=
  if modelTag.isPrefixOf name then
    some (trimChars (name.drop 6))
  else
    none

/-! Concrete advertisements used by the claim instances below. -/

/-- A fixed MAC address. -/
def addrA : String := "AA:BB:CC:DD:EE:FF"

/-- Manufacturer payload with the tag and serial bytes for serial 1. -/
def mfgSerial1 : List Nat := [79, 84, 79, 0, 0, 0, 0, 1, 0, 0, 0]

/-- Manufacturer payload with the tag and serial bytes for serial 2. -/
def mfgSerial2 : List Nat := [79, 84, 79, 0, 0, 0, 0, 2, 0, 0, 0]

/-- Manufacturer payload with the tag and serial bytes for serial 123. -/
def mfgSerial123 : List Nat := [79, 84, 79, 0, 0, 0, 0, 123, 0, 0, 0]

/-- The spec's P4 example payload b"OTOSTAT\x01s\x00s\x00\x8a\xbc\x04\x00". -/
def p4payload : List Nat :=
  [79, 84, 79, 83, 84, 65, 84, 1, 115, 0, 115, 0, 138, 188, 4, 0]

/-- Identity advertisement for addrA decoding to serial "1". -/
def advIdentity1 : Adv := ⟨addrA, some mfgSerial1, none, -60⟩

/-- Identity advertisement for addrA decoding to serial "2". -/
def advIdentity2 : Adv := ⟨addrA, some mfgSerial2, none, -60⟩

/-- Identity advertisement for addrA decoding to serial "123". -/
def advIdentity123 : Adv := ⟨addrA, some mfgSerial123, none, -60⟩

/-- Reading advertisement from addrA with level 55.5. -/
def advReading : Adv := ⟨addrA, none, some "level: 55.5 % vertical", -61⟩

/-- A state in which addrA is registered and announced with serial "123". -/
def tankKnownState : BridgeState := ⟨[(addrA, "123")], ["123"]⟩

/-! Helper lemmas. -/

theorem isPrefixOf_append_self (l r : List Char) :
    l.isPrefixOf (l ++ r) = true := by
  induction l with
  | nil => simp [List.isPrefixOf]
  | cons c cs ih => simp [List.isPrefixOf, ih]

theorem fromBytesLE_take4 (b0 b1 b2 b3 : Nat) (m : List Nat) :
    fromBytesLE ((b0 :: b1 :: b2 :: b3 :: m).take 4) =
      b0 + 256 * b1 + 65536 * b2 + 16777216 * b3 := by
  simp [fromBytesLE]
  ring

theorem getD_drop (l : List Nat) (n i : Nat) :
    (l.drop n).getD i 0 = l.getD (n + i) 0 := by
  induction l generalizing n with
  | nil => simp [List.getD]
  | cons b m ih =>
    cases n with
    | zero => simp
    | succ k => simp [Nat.succ_add, ih]

theorem exists_cons4 (l : List Nat) (h : 4 ≤ l.length) :
    ∃ b0 b1 b2 b3 m, l = b0 :: b1 :: b2 :: b3 :: m := by
  match l with
  | [] => exact absurd h (by decide)
  | [b0] => exact absurd h (by simp)
  | [b0, b1] => exact absurd h (by simp)
  | [b0, b1, b2] => exact absurd h (by simp)
  | b0 :: b1 :: b2 :: b3 :: m => exact ⟨b0, b1, b2, b3, m, rfl⟩

/-! C7: binary-framing identity decode. -/

/-- C7: for every manufacturer payload that begins with the 3-byte tag and
has at least 11 bytes, parse_serial yields the decimal string of the
little-endian 32-bit unsigned integer formed by bytes 7 to 10. -/
theorem binary_framing_decode (mfg : List Nat)
    (htag : OTODATA_TAG.isPrefixOf mfg = true) (hlen : 11 ≤ mfg.length) :
    parse_serial mfg = some (Nat.repr
      (mfg.getD 7 0 + 256 * mfg.getD 8 0 + 65536 * mfg.getD 9 0 +
        16777216 * mfg.getD 10 0)) := by
  have h4 : 4 ≤ (mfg.drop 7).length := by
    rw [List.length_drop]; omega
  obtain ⟨b0, b1, b2, b3, m, hdec⟩ := exists_cons4 _ h4
  have e : ∀ i, mfg.getD (7 + i) 0 = (b0 :: b1 :: b2 :: b3 :: m).getD i 0 := by
    intro i; rw [← getD_drop, hdec]
  have e0 : mfg.getD 7 0 = b0 := by simpa [List.getD] using e 0
  have e1 : mfg.getD 8 0 = b1 := by simpa [List.getD] using e 1
  have e2 : mfg.getD 9 0 = b2 := by simpa [List.getD] using e 2
  have e3 : mfg.getD 10 0 = b3 := by simpa [List.getD] using e 3
  rw [e0, e1, e2, e3]
  simp only [parse_serial, htag, if_true]
  rw [hdec, fromBytesLE_take4]

/-- C7 witness: the spec's P4 payload satisfies both hypotheses and decodes
to the decimal string "1929409281" of the integer at offset 7. -/
theorem binary_framing_decode_witness :
    (OTODATA_TAG.isPrefixOf p4payload = true ∧ 11 ≤ p4payload.length ∧
      parse_serial p4payload = some (Nat.repr
        (p4payload.getD 7 0 + 256 * p4payload.getD 8 0 +
          65536 * p4payload.getD 9 0 + 16777216 * p4payload.getD 10 0))) ∧
      parse_serial p4payload = some "1929409281" :=
  ⟨⟨by decide, by decide,
    binary_framing_decode p4payload (by decide) (by decide)⟩, by decide⟩

/-! C3: name-framing identity decode (spec-modelled, see parse_serial_name). -/

/-- C3: every local name that begins with the model tag "TM6030" decodes,
under the spec-modelled name framing, to the remainder of the name trimmed of
surrounding whitespace; in particular "TM6030 20479133" decodes to the serial
"20479133". -/
theorem name_framing_decode :
    (∀ rest : List Char,
        parse_serial_name (modelTag ++ rest) = some (trimChars rest)) ∧
      parse_serial_name "TM6030 20479133".data = some "20479133".data := by
  constructor
  · intro rest
    unfold parse_serial_name
    rw [isPrefixOf_append_self]
    simp [modelTag]
  · decide

/-! C5: a short tagged payload does not fail silently (code bug). -/

/-- C5: evaluation of the code at the failing input — the 3-byte payload
b"OTO" carries the tag but is shorter than 11 bytes, yet parse_serial
extracts serial "0" (the slice mfg[7:11] is empty and int.from_bytes of the
empty bytes is 0), the address is recorded in the registry, and the
discovery announcement for "0" fires. -/
theorem short_payload_extracts_zero :
    parse_serial [79, 84, 79] = some "0" ∧
      detection_callback initState ⟨addrA, some [79, 84, 79], none, -60⟩ =
        ⟨⟨[(addrA, "0")], ["0"]⟩,
         [⟨"homeassistant/sensor/otodata_0/level/config",
            Payload.levelConfig "0", true⟩,
          ⟨"homeassistant/sensor/otodata_0/rssi/config",
            Payload.rssiConfig "0", true⟩], none⟩ := by
  decide

/-! C6: end-to-end run. -/

/-- C6: feeding the identity advertisement for addrA (serial "123"), then the
reading advertisement with level 55.5, then the identity advertisement again
yields exactly the two retained discovery configs on first sight, exactly one
retained state publication with level 55.5 (= 111/2), the advertisement's
rssi and the MAC, on topic otodata/123/state, and nothing further for the
repeat. -/
theorem end_to_end_run :
    runAdvs initState [advIdentity123, advReading, advIdentity123] =
      ⟨⟨[(addrA, "123")], ["123"]⟩,
       [⟨"homeassistant/sensor/otodata_123/level/config",
          Payload.levelConfig "123", true⟩,
        ⟨"homeassistant/sensor/otodata_123/rssi/config",
          Payload.rssiConfig "123", true⟩,
        ⟨"otodata/123/state", Payload.state (mkRat 111 2) (-61) addrA, true⟩],
       []⟩ := by
  decide

/-! C1: registry write semantics. -/

theorem step1_known (s : BridgeState) (adv : Adv) (s1 : String)
    (h : s.knownTanks.lookup adv.address = some s1) :
    step1 s adv = (s, []) := by
  unfold step1
  cases hid : identity_decode adv with
  | none => rfl
  | some serial => simp [h]

/-- C1 (counterexample): two successful identity decodes for the same
address, yielding serials "1" then "2", leave the registry mapping the
address to "1": the later decode does not overwrite the earlier one. -/
theorem registry_not_last_write_wins :
    parse_serial mfgSerial1 = some "1" ∧ parse_serial mfgSerial2 = some "2" ∧
      (runAdvs initState
          [advIdentity1, advIdentity2]).state.knownTanks.lookup addrA =
        some "1" := by
  decide

/-- C1 (amended): the registry is first-write-wins — once an address is
registered with a serial, processing any further advertisement (in
particular any later identity decode for that address) leaves the address
mapped to its original serial. -/
theorem registry_first_write_wins (s : BridgeState) (adv : Adv) (s1 : String)
    (h : s.knownTanks.lookup adv.address = some s1) :
    (detection_callback s adv).state.knownTanks.lookup adv.address =
      some s1 := by
  unfold detection_callback
  rw [step1_known s adv s1 h]
  exact h

/-- C1 witness: with addrA registered as "123", the identity advertisement
decoding to "2" leaves the registry at "123". -/
theorem registry_first_write_wins_witness :
    tankKnownState.knownTanks.lookup advIdentity2.address = some "123" ∧
      (detection_callback tankKnownState
          advIdentity2).state.knownTanks.lookup advIdentity2.address =
        some "123" :=
  ⟨by decide,
    registry_first_write_wins tankKnownState advIdentity2 "123" (by decide)⟩

/-! C2: discovery announcement cardinality. -/

/-- Number of discovery announcements for serial S in a publish list,
counted by the level-config publication that leads each announcement. -/
def announceCount (S : String) (pubs : List Publish) : Nat :=
  pubs.countP (fun p => decide (p.payload = Payload.levelConfig S))

theorem announceCount_append (S : String) (l1 l2 : List Publish) :
    announceCount S (l1 ++ l2) =
      announceCount S l1 + announceCount S l2 := by
  simp [announceCount, List.countP_append]

/-- 1 while S is unannounced, 0 afterwards. -/
def announcedWeight (S : String) (s : BridgeState) : Nat :=
  if S ∈ s.configuredSerials then 0 else 1

theorem pub_ha_announce_bound (s : BridgeState) (serial S : String) :
    announceCount S (publish_ha_discovery s serial).2 +
      announcedWeight S (publish_ha_discovery s serial).1 ≤
        announcedWeight S s := by
  unfold publish_ha_discovery announcedWeight
  split
  · simp [announceCount]
  · rename_i hs
    by_cases hS : serial = S
    · subst hS
      simp [announceCount, List.countP_cons, hs, List.mem_cons]
    · have hS2 : S ≠ serial := fun h => hS h.symm
      simp [announceCount, List.countP_cons, List.mem_cons, hS, hS2]

theorem step2_announce_zero (s : BridgeState) (adv : Adv) (S : String) :
    announceCount S (step2 s adv).1 = 0 := by
  unfold step2
  split
  · rfl
  · split
    · rfl
    · split
      · rfl
      · simp [announceCount]

theorem step1_announce_bound (s : BridgeState) (adv : Adv) (S : String) :
    announceCount S (step1 s adv).2 + announcedWeight S (step1 s adv).1 ≤
      announcedWeight S s := by
  unfold step1
  cases hid : identity_decode adv with
  | none => simp [announceCount]
  | some serial =>
    by_cases hk : (s.knownTanks.lookup adv.address).isNone
    · simp only [hk, if_true]
      exact pub_ha_announce_bound _ serial S
    · simp [hk, announceCount]

theorem callback_announce_bound (s : BridgeState) (adv : Adv) (S : String) :
    announceCount S (detection_callback s adv).pubs +
      announcedWeight S (detection_callback s adv).state ≤
        announcedWeight S s := by
  unfold detection_callback
  simp only [announceCount_append, step2_announce_zero]
  simpa using step1_announce_bound s adv S

theorem run_announce_bound (advs : List Adv) (s : BridgeState) (S : String) :
    announceCount S (runAdvs s advs).pubs +
      announcedWeight S (runAdvs s advs).state ≤ announcedWeight S s := by
  induction advs generalizing s with
  | nil => simp [runAdvs, announceCount]
  | cons a rest ih =>
    have h1 := callback_announce_bound s a S
    have h2 := ih (detection_callback s a).state
    simp only [runAdvs, announceCount_append]
    omega

/-- C2 (counterexample): after the run [identity of addrA with serial "1",
identity of addrA with serial "2"], the second advertisement is a successful
identity-decode event for serial "2" (its first and only one), yet the run
contains no discovery announcement for "2" at all — the announcement does
not fire on the first identity-decode event of a serial when its address is
already registered. -/
theorem discovery_not_on_first_event :
    parse_serial mfgSerial2 = some "2" ∧
      announceCount "2"
        (runAdvs initState [advIdentity1, advIdentity2]).pubs = 0 ∧
      announceCount "1"
        (runAdvs initState [advIdentity1, advIdentity2]).pubs = 1 := by
  decide

/-- C2 (amended): across any advertisement sequence the discovery
announcement fires at most once per serial, and it fires exactly on an
identity-decode event whose address is not yet registered and whose serial
is not yet announced; events for a serial arriving at an already-registered
address fire nothing, so a serial can see N identity decodes and 0
announcements. -/
theorem discovery_at_most_once :
    (∀ (advs : List Adv) (S : String),
        announceCount S (runAdvs initState advs).pubs ≤ 1) ∧
      ∀ (s : BridgeState) (adv : Adv) (S : String),
        identity_decode adv = some S →
          s.knownTanks.lookup adv.address = none →
            S ∉ s.configuredSerials →
              announceCount S (detection_callback s adv).pubs = 1 := by
  constructor
  · intro advs S
    have h := run_announce_bound advs initState S
    have hw : announcedWeight S initState = 1 := by
      simp [announcedWeight, initState]
    omega
  · intro s adv S hid hk hc
    unfold detection_callback
    simp only [announceCount_append, step2_announce_zero]
    unfold step1
    rw [hid, hk]
    simp only [Option.isNone_none, if_true]
    unfold publish_ha_discovery
    simp [hc, announceCount, List.countP_cons]

/-- C2 witness: on the empty state, the identity advertisement for serial
"123" satisfies the three hypotheses and fires exactly one announcement. -/
theorem discovery_at_most_once_witness :
    identity_decode advIdentity123 = some "123" ∧
      initState.knownTanks.lookup advIdentity123.address = none ∧
      "123" ∉ initState.configuredSerials ∧
      announceCount "123"
        (detection_callback initState advIdentity123).pubs = 1 :=
  ⟨by decide, by decide, by decide,
    discovery_at_most_once.2 initState advIdentity123 "123"
      (by decide) (by decide) (by decide)⟩

/-! C4: malformed level values. -/

/-- A reading advertisement whose level token has no digits. -/
def advLevelNoDigits : Adv := ⟨addrA, none, some "level: % vertical", -60⟩

/-- A reading advertisement whose level token matches the regex but is not a
valid float. -/
def advLevelDot : Adv := ⟨addrA, none, some "level: .", -60⟩

/-- True when a publish carries a state payload. -/
def isStatePub (p : Publish) : Bool :=
  match p.payload with
  | Payload.state _ _ _ => true
  | _ => false

theorem step2_no_token (s : BridgeState) (adv : Adv)
    (h : levelToken (adv.localName.getD "").data = none) :
    step2 s adv = ([], none) := by
  unfold step2
  split
  · rfl
  · rw [h]

theorem pub_ha_no_state (s : BridgeState) (serial : String) :
    ((publish_ha_discovery s serial).2).all (fun p => !(isStatePub p)) =
      true := by
  unfold publish_ha_discovery
  split <;> rfl

theorem step1_no_state (s : BridgeState) (adv : Adv) :
    ((step1 s adv).2).all (fun p => !(isStatePub p)) = true := by
  unfold step1
  split
  · rfl
  · split
    · exact pub_ha_no_state _ _
    · rfl

/-- C4 (counterexample): for the local name "level: % vertical" arriving on a
known tank, processing returns silently — no publish, no error report — so
the malformed level value is a silent non-match, not a reported decode
error. -/
theorem level_malformed_silent_counterexample :
    detection_callback tankKnownState advLevelNoDigits =
      ⟨tankKnownState, [], none⟩ := by
  decide

/-- C4 (amended): when the local name has no match of the level pattern (in
particular when "level:" is present but no digit or dot follows), processing
raises no exception, reports no error and publishes no state payload — a
silent non-match; when the pattern does match but the token is not a valid
number (such as "level: ."), float() raises an uncaught ValueError instead
of reporting a decode error. -/
theorem level_no_token_silent :
    (∀ (s : BridgeState) (adv : Adv),
        levelToken (adv.localName.getD "").data = none →
          (detection_callback s adv).err = none ∧
            (detection_callback s adv).pubs.all (fun p => !(isStatePub p)) =
              true) ∧
      (detection_callback tankKnownState advLevelDot).err =
        some "ValueError" := by
  constructor
  · intro s adv h
    have h2 := step2_no_token (step1 s adv).1 adv h
    unfold detection_callback
    simp [h2, List.all_append, step1_no_state s adv]
  · decide

/-- C4 witness: "level: % vertical" has no level-token match, and processing
it on a known tank reports no error and publishes no state payload. -/
theorem level_no_token_silent_witness :
    levelToken (advLevelNoDigits.localName.getD "").data = none ∧
      (detection_callback initState advLevelNoDigits).err = none ∧
      (detection_callback initState advLevelNoDigits).pubs.all
        (fun p => !(isStatePub p)) = true :=
  ⟨by decide,
    (level_no_token_silent.1 initState advLevelNoDigits (by decide)).1,
    (level_no_token_silent.1 initState advLevelNoDigits (by decide)).2⟩

/-! C8: dangling readings. -/

/-- A reading advertisement from an address that never identified. -/
def advDangling : Adv := ⟨"11:22:33:44:55:66", none, some "level: 42", -50⟩

/-- C8: a reading advertisement (level pattern present in the local name)
whose identity decode fails and whose address is not registered produces no
publish, no error, and leaves the state unchanged. -/
theorem dangling_reading_dropped (s : BridgeState) (adv : Adv)
    (hid : identity_decode adv = none)
    (hunknown : s.knownTanks.lookup adv.address = none)
    (_hname : (levelToken (adv.localName.getD "").data).isSome = true) :
    detection_callback s adv = ⟨s, [], none⟩ := by
  have h1 : step1 s adv = (s, []) := by unfold step1; rw [hid]
  have h2 : step2 s adv = ([], none) := by unfold step2; rw [hunknown]
  unfold detection_callback
  simp [h1, h2]

/-- C8 witness: a level reading from an unknown address on the empty state
is dropped. -/
theorem dangling_reading_dropped_witness :
    identity_decode advDangling = none ∧
      initState.knownTanks.lookup advDangling.address = none ∧
      (levelToken (advDangling.localName.getD "").data).isSome = true ∧
      detection_callback initState advDangling = ⟨initState, [], none⟩ :=
  ⟨by decide, by decide, by decide,
    dangling_reading_dropped initState advDangling
      (by decide) (by decide) (by decide)⟩

/-! C9: availability signalling. -/

theorem step2_not_offline (s : BridgeState) (adv : Adv) :
    ((step2 s adv).1).all
      (fun p => !(decide (p.payload = Payload.str "offline"))) = true := by
  unfold step2
  split
  · rfl
  · split
    · rfl
    · split
      · rfl
      · rfl

theorem pub_ha_not_offline (s : BridgeState) (serial : String) :
    ((publish_ha_discovery s serial).2).all
      (fun p => !(decide (p.payload = Payload.str "offline"))) = true := by
  unfold publish_ha_discovery
  split <;> rfl

theorem step1_not_offline (s : BridgeState) (adv : Adv) :
    ((step1 s adv).2).all
      (fun p => !(decide (p.payload = Payload.str "offline"))) = true := by
  unfold step1
  split
  · rfl
  · split
    · exact pub_ha_not_offline _ _
    · rfl

/-- C9: on a successful connection (reason code 0) the controller publishes
exactly the retained "online" payload to the bridge availability topic; no
reason code ever makes on_connect publish "offline", no advertisement ever
makes detection_callback publish "offline", and the "offline" payload lives
only in the last-will registration handed to the broker. -/
theorem availability_contract :
    on_connect 0 = [⟨BRIDGE_TOPIC, Payload.str "online", true⟩] ∧
      (∀ rc : Nat, (on_connect rc).all
        (fun p => !(decide (p.payload = Payload.str "offline"))) = true) ∧
      (∀ (s : BridgeState) (adv : Adv), (detection_callback s adv).pubs.all
        (fun p => !(decide (p.payload = Payload.str "offline"))) = true) ∧
      last_will = ⟨BRIDGE_TOPIC, "offline", 1, true⟩ := by
  refine ⟨rfl, ?_, ?_, rfl⟩
  · intro rc
    unfold on_connect
    split <;> rfl
  · intro s adv
    unfold detection_callback
    simp [List.all_append, step1_not_offline s adv,
      step2_not_offline (step1 s adv).1 adv]

/-! C10: announced serials are registered. -/

theorem pub_ha_inv (s : BridgeState) (serial : String)
    (h : ∀ t ∈ s.configuredSerials, ∃ a, (a, t) ∈ s.knownTanks)
    (hw : ∃ a, (a, serial) ∈ s.knownTanks) :
    ∀ t ∈ (publish_ha_discovery s serial).1.configuredSerials,
      ∃ a, (a, t) ∈ (publish_ha_discovery s serial).1.knownTanks := by
  unfold publish_ha_discovery
  split
  · exact h
  · intro t ht
    rcases List.mem_cons.mp ht with h1 | h2
    · subst h1; exact hw
    · exact h t h2

theorem step1_inv (s : BridgeState) (adv : Adv)
    (h : ∀ t ∈ s.configuredSerials, ∃ a, (a, t) ∈ s.knownTanks) :
    ∀ t ∈ (step1 s adv).1.configuredSerials,
      ∃ a, (a, t) ∈ (step1 s adv).1.knownTanks := by
  unfold step1
  split
  · exact h
  · split
    · apply pub_ha_inv
      · intro t ht
        obtain ⟨a, ha⟩ := h t ht
        exact ⟨a, List.mem_cons_of_mem _ ha⟩
      · exact ⟨adv.address, List.mem_cons_self _ _⟩
    · exact h

theorem run_inv (advs : List Adv) (s : BridgeState)
    (h : ∀ t ∈ s.configuredSerials, ∃ a, (a, t) ∈ s.knownTanks) :
    ∀ t ∈ (runAdvs s advs).state.configuredSerials,
      ∃ a, (a, t) ∈ (runAdvs s advs).state.knownTanks := by
  induction advs generalizing s with
  | nil => exact h
  | cons a rest ih => exact ih (detection_callback s a).state (step1_inv s a h)

/-- C10: starting from the empty state, after processing any list of
advertisements every announced serial is the registered serial of at least
one address in the registry. -/
theorem announced_subset_registered (advs : List Adv) :
    ∀ serial ∈ (runAdvs initState advs).state.configuredSerials,
      ∃ addr, (addr, serial) ∈ (runAdvs initState advs).state.knownTanks :=
  run_inv advs initState (fun t ht => absurd ht (List.not_mem_nil t))

/-- C10 witness: after the identity advertisement for serial "123", the
serial is announced and registered for some address. -/
theorem announced_subset_registered_witness :
    "123" ∈ (runAdvs initState [advIdentity123]).state.configuredSerials ∧
      ∃ addr,
        (addr, "123") ∈ (runAdvs initState [advIdentity123]).state.knownTanks :=
  ⟨by decide, announced_subset_registered [advIdentity123] "123" (by decide)⟩

end Otodata
